import Mathlib

/-!
Shallow embedding of the Porch task-queue client of `npg_notifications`
(`src/npg_notify/ont/porch.py`, `src/npg_notify/ont/event.py`) and of the
companion status-update retry loop (`src/npg_notify/porch_wrapper/qc_state.py`),
with theorems settling the specification claims about them.

Modelling conventions:
- Python code that can raise is embedded as `Except String` (the message is the
  exception text where it matters).
- The network boundary is abstracted: the transport behaviour of the server is
  an input `att : Nat -> Attempt ρ ε` giving, for each attempt index, either an
  HTTP response or a transport-level exception.  The request method, URL and
  headers do not influence the claims and are folded into that abstraction;
  request bodies are modelled explicitly where a claim mentions them.
- `time.sleep` calls are recorded as a list of slept durations.
-/

/-! ## Python value model (hashability)

`Task.__hash__` in `porch.py` is `hash(self.to_serializable())`, and
`to_serializable` returns a Python `dict`.  In Python, `hash` on a `dict`
raises `TypeError: unhashable type`.  `PyVal` models the JSON-serializable
Python values in play and `pyHash` models the built-in `hash`: defined for
`None`, `int` and `str` (for `str` a deterministic stand-in value: only
definedness and content-dependence matter here), raising for `dict`. -/

inductive PyVal where
  | pyNone
  | pyInt (n : Int)
  | pyStr (s : String)
  | pyDict (entries : List (String × PyVal))

def pyHash : PyVal → Except String Int
  | .pyNone => .ok 0
  | .pyInt n => .ok n
  | .pyStr s => .ok (Int.ofNat (s.foldl (fun a c => a * 31 + c.toNat) 7))
  | .pyDict _ => .error "TypeError: unhashable type: dict"

/-! ## Task status

`Task.Status` in `porch.py` is a str-Enum with six members.  The wire carries
the member names; `Task.Status.__members__` is keyed by exactly these strings. -/

def statusMembers : List String :=
  ["PENDING", "CLAIMED", "RUNNING", "DONE", "CANCELLED", "FAILED"]

/-! ## ContactEmail (`event.py`)

`ContactEmail.__init__` validates its five keyword arguments (each defaulting
to `None`) and calls `super().__init__(Task.Status.PENDING)`.
`to_serializable` returns the dict of the five fields; `from_serializable` is
`cls(**serializable)`, i.e. the constructor applied to the record's fields.
The `event` field travels as its string value (`EventType` is a str-Enum). -/

structure ContactEmail where
  status : Option String
  experiment_name : String
  instrument_slot : Int
  flowcell_id : String
  path : String
  event : String
deriving DecidableEq

/-- The serializable dict of a `ContactEmail`: five keys, a value or `None`
(absent keyword arguments default to `None` in the constructor). -/
structure ContactEmailSerializable where
  experiment_name : Option String
  instrument_slot : Option Int
  flowcell_id : Option String
  path : Option String
  event : Option String
deriving DecidableEq

/-- `ContactEmail.__init__`: raises `ValueError` (modelled as `.error`) when a
required argument is `None`, or when `instrument_slot < 1 or instrument_slot > 24`;
checks run in source order.  On success the task starts with status `PENDING`. -/
def ContactEmail.init (experiment_name : Option String) (instrument_slot : Option Int)
    (flowcell_id : Option String) (path : Option String) (event : Option String) :
    Except String ContactEmail :=
  match experiment_name with
  | none => .error "experiment_name is required"
  | some en =>
    match instrument_slot with
    | none => .error "instrument_slot is required"
    | some slot =>
      if slot < 1 ∨ slot > 24 then .error "instrument_slot must be between 1 and 24"
      else
        match flowcell_id with
        | none => .error "flowcell_id is required"
        | some fid =>
          match path with
          | none => .error "path is required"
          | some pa =>
            match event with
            | none => .error "event is required"
            | some ev =>
              .ok { status := some "PENDING", experiment_name := en,
                    instrument_slot := slot, flowcell_id := fid, path := pa, event := ev }

/-- `ContactEmail.to_serializable`: the dict of the five input fields
(status excluded). -/
def ContactEmail.to_serializable (t : ContactEmail) : ContactEmailSerializable :=
  { experiment_name := some t.experiment_name,
    instrument_slot := some t.instrument_slot,
    flowcell_id := some t.flowcell_id,
    path := some t.path,
    event := some t.event }

/-- `ContactEmail.from_serializable`: `cls(**serializable)`, the constructor on
the record's fields. -/
def ContactEmail.from_serializable (s : ContactEmailSerializable) : Except String ContactEmail :=
  ContactEmail.init s.experiment_name s.instrument_slot s.flowcell_id s.path s.event

/-- The `to_serializable` dict as a Python value, for hashing:
`Task.__hash__` is `hash(self.to_serializable())`. -/
def ContactEmail.serializableDict (t : ContactEmail) : PyVal :=
  .pyDict [("experiment_name", .pyStr t.experiment_name),
           ("instrument_slot", .pyInt t.instrument_slot),
           ("flowcell_id", .pyStr t.flowcell_id),
           ("path", .pyStr t.path),
           ("event", .pyStr t.event)]

/-- `Task.__hash__` (`porch.py` line 91) applied to a `ContactEmail`:
`hash(self.to_serializable())` where `to_serializable()` is a `dict`. -/
def ContactEmail.pyHashValue (t : ContactEmail) : Except String Int :=
  pyHash (ContactEmail.serializableDict t)

/-- `Task.__eq__` (`porch.py` line 85) between two `ContactEmail` values: both
sides are `Task` instances, so the result is `to_serializable() == other.to_serializable()`.
(Note: on `ContactEmail` itself this inherited method is shadowed by a
`@dataclass`-generated `__eq__`; this definition is the base-class method the
claim cites.) -/
def Task.pyEq (t u : ContactEmail) : Bool :=
  decide (ContactEmail.to_serializable t = ContactEmail.to_serializable u)

/-! ## The request layer (`Pipeline._request`)

`_request` loops `for attempt in range(num_attempts)` with `num_attempts = 3`
and `wait = 15`.  Each attempt either returns the HTTP response immediately
(whatever its status code) or, on any exception, records it as `last_error`,
sleeps `wait` seconds, doubles `wait`, and continues.  After the loop the last
error is raised (`last_error` starts as `None`). -/

inductive Attempt (ρ ε : Type) where
  | response (r : ρ)
  | failure (e : ε)

structure RequestOutcome (ρ ε : Type) where
  /-- The returned response, or the raised `last_error`. -/
  result : Except (Option ε) ρ
  /-- How many attempts were made. -/
  attemptsMade : Nat
  /-- The durations passed to `time.sleep`, in order. -/
  sleeps : List Nat

def requestLoop {ρ ε : Type} (att : Nat → Attempt ρ ε) :
    Nat → Nat → Nat → Option ε → List Nat → RequestOutcome ρ ε
  | 0, made, _, lastError, slept => ⟨.error lastError, made, slept.reverse⟩
  | remaining + 1, made, wait, _lastError, slept =>
    match att made with
    | .response r => ⟨.ok r, made + 1, slept.reverse⟩
    | .failure e => requestLoop att remaining (made + 1) (wait * 2) (some e) (wait :: slept)

/-- `Pipeline._request`: three attempts, first backoff 15, doubling. -/
def Pipeline.request {ρ ε : Type} (att : Nat → Attempt ρ ε) : RequestOutcome ρ ε :=
  requestLoop att 3 0 15 none []

/-! ## HTTP responses and the generic operations -/

structure HttpResponse (β : Type) where
  status_code : Nat
  body : β

/-- `requests.Response.raise_for_status`: raises `HTTPError` for status codes
400-599, does nothing otherwise. -/
def raise_for_status {β : Type} (r : HttpResponse β) : Except String Unit :=
  if 400 ≤ r.status_code ∧ r.status_code < 600 then .error "HTTPError" else .ok ()

/-- The exceptions a pipeline operation can propagate. -/
inductive OpError (ε : Type) where
  | transport (e : Option ε)
  | http (status_code : Nat)
  | protocol (msg : String)

/-- A generic task object: kind-specific content plus the mutable `status`
attribute (a wire string, or `None` before one is assigned). -/
structure MTask (δ : Type) where
  content : δ
  status : Option String

/-- A `{"task_input": ..., "status": ...}` record as returned by the server. -/
structure TaskRecord (γ : Type) where
  task_input : γ
  status : String

/-- Pipeline identity: name, URI, version. -/
structure PipelineIdentity where
  name : String
  uri : String
  version : String
deriving DecidableEq

/-- `Pipeline._to_serializable(task)` for a task: the full request body
`{"pipeline": ..., "task_input": ..., "status": ...}`. -/
structure UpdateBody (γ : Type) where
  pipeline : PipelineIdentity
  task_input : γ
  status : Option String

/-- `Pipeline._from_serializable`: build a task via the registered task class
(`deser` models `cls.from_serializable`, which can raise), then raise
`ValueError` unless the record's status string is a member name of
`Task.Status`, then assign the status string to the new task. -/
def Pipeline.from_serializable {γ δ : Type} (deser : γ → Except String δ)
    (s : TaskRecord γ) : Except String (MTask δ) :=
  match deser s.task_input with
  | .error e => .error e
  | .ok c =>
    if s.status ∈ statusMembers then .ok { content := c, status := some s.status }
    else .error ("Invalid task status from server: " ++ s.status)

/-- `Pipeline._update_task` given the serialized body already built by the
caller: PUT the body, `raise_for_status`, then `_from_serializable` on the
response JSON.  `att body` is the transport behaviour of the server for this
request. -/
def Pipeline.update_task {γ δ ε : Type} (deser : γ → Except String δ)
    (att : UpdateBody γ → Nat → Attempt (HttpResponse (TaskRecord γ)) ε)
    (body : UpdateBody γ) : Except (OpError ε) (MTask δ) :=
  match (Pipeline.request (att body)).result with
  | .error e => .error (.transport e)
  | .ok resp =>
    match raise_for_status resp with
    | .error _ => .error (.http resp.status_code)
    | .ok _ =>
      match Pipeline.from_serializable deser resp.body with
      | .error m => .error (.protocol m)
      | .ok task => .ok task

/-- The shared shape of `Pipeline.run` / `done` / `fail` / `cancel` / `retry`:
set `task.status` to the desired status (a mutation of the caller's object,
performed before any request), serialize the mutated task as the request body,
and call `_update_task`.  Returns the caller's (mutated) task, the body that
was sent, and the raised-or-returned result. -/
def Pipeline.transition {γ δ ε : Type} (p : PipelineIdentity) (ser : δ → γ)
    (deser : γ → Except String δ) (desired : String)
    (att : UpdateBody γ → Nat → Attempt (HttpResponse (TaskRecord γ)) ε)
    (task : MTask δ) : MTask δ × UpdateBody γ × Except (OpError ε) (MTask δ) :=
  let mutated : MTask δ := { task with status := some desired }
  let body : UpdateBody γ :=
    { pipeline := p, task_input := ser mutated.content, status := mutated.status }
  (mutated, body, Pipeline.update_task deser att body)

/-- `Pipeline.run`: `task.status = Task.Status.RUNNING; return self._update_task(task)`. -/
def Pipeline.run {γ δ ε : Type} (p : PipelineIdentity) (ser : δ → γ)
    (deser : γ → Except String δ)
    (att : UpdateBody γ → Nat → Attempt (HttpResponse (TaskRecord γ)) ε)
    (task : MTask δ) : MTask δ × UpdateBody γ × Except (OpError ε) (MTask δ) :=
  Pipeline.transition p ser deser "RUNNING" att task

/-- `Pipeline.done`: sets `DONE` then updates. -/
def Pipeline.done {γ δ ε : Type} (p : PipelineIdentity) (ser : δ → γ)
    (deser : γ → Except String δ)
    (att : UpdateBody γ → Nat → Attempt (HttpResponse (TaskRecord γ)) ε)
    (task : MTask δ) : MTask δ × UpdateBody γ × Except (OpError ε) (MTask δ) :=
  Pipeline.transition p ser deser "DONE" att task

/-- `Pipeline.fail`: sets `FAILED` then updates. -/
def Pipeline.fail {γ δ ε : Type} (p : PipelineIdentity) (ser : δ → γ)
    (deser : γ → Except String δ)
    (att : UpdateBody γ → Nat → Attempt (HttpResponse (TaskRecord γ)) ε)
    (task : MTask δ) : MTask δ × UpdateBody γ × Except (OpError ε) (MTask δ) :=
  Pipeline.transition p ser deser "FAILED" att task

/-- `Pipeline.cancel`: sets `CANCELLED` then updates. -/
def Pipeline.cancel {γ δ ε : Type} (p : PipelineIdentity) (ser : δ → γ)
    (deser : γ → Except String δ)
    (att : UpdateBody γ → Nat → Attempt (HttpResponse (TaskRecord γ)) ε)
    (task : MTask δ) : MTask δ × UpdateBody γ × Except (OpError ε) (MTask δ) :=
  Pipeline.transition p ser deser "CANCELLED" att task

/-- `Pipeline.retry`: sets `PENDING` then updates. -/
def Pipeline.retry {γ δ ε : Type} (p : PipelineIdentity) (ser : δ → γ)
    (deser : γ → Except String δ)
    (att : UpdateBody γ → Nat → Attempt (HttpResponse (TaskRecord γ)) ε)
    (task : MTask δ) : MTask δ × UpdateBody γ × Except (OpError ε) (MTask δ) :=
  Pipeline.transition p ser deser "PENDING" att task

/-- `Pipeline.add`: POST the serialized task (pipeline identity, task input and
current status), `raise_for_status`, then return `status_code == 201`
(`http.HTTPStatus.CREATED`).  The response body is never consulted: the
response body type `β` is arbitrary here. -/
def Pipeline.add {γ δ β ε : Type} (p : PipelineIdentity) (ser : δ → γ)
    (att : UpdateBody γ → Nat → Attempt (HttpResponse β) ε)
    (task : MTask δ) : Except (OpError ε) Bool :=
  match (Pipeline.request (att { pipeline := p, task_input := ser task.content,
                                 status := task.status })).result with
  | .error e => .error (.transport e)
  | .ok resp =>
    match raise_for_status resp with
    | .error _ => .error (.http resp.status_code)
    | .ok _ => .ok (resp.status_code == 201)

/-- `Pipeline.register`: POST the pipeline identity.  A 409 response logs a
warning (the `Bool` output records whether the warning was logged) and returns
`self`; otherwise `raise_for_status` then return `self`. -/
def Pipeline.register {β ε : Type} (p : PipelineIdentity)
    (att : PipelineIdentity → Nat → Attempt (HttpResponse β) ε) :
    Except (OpError ε) PipelineIdentity × Bool :=
  match (Pipeline.request (att p)).result with
  | .error e => (.error (.transport e), false)
  | .ok resp =>
    if resp.status_code == 409 then (.ok p, true)
    else
      match raise_for_status resp with
      | .error _ => (.error (.http resp.status_code), false)
      | .ok _ => (.ok p, false)

/-- The list comprehension `[self._from_serializable(item) for item in response.json()]`:
deserializes the records in order, propagating the first exception. -/
def deserializeAll {γ δ : Type} (deser : γ → Except String δ) :
    List (TaskRecord γ) → Except String (List (MTask δ))
  | [] => .ok []
  | r :: rs =>
    match Pipeline.from_serializable deser r with
    | .error e => .error e
    | .ok t =>
      match deserializeAll deser rs with
      | .error e => .error e
      | .ok ts => .ok (t :: ts)

/-- `Pipeline._get_tasks`: GET (the pipeline name and optional status filter
are query parameters, folded into `att`), `raise_for_status`, then deserialize
every record of the response body.  `all`/`pending`/`claimed`/`running`/
`succeeded`/`cancelled`/`failed` are this with different status filters. -/
def Pipeline.get_tasks {γ δ ε : Type} (deser : γ → Except String δ)
    (att : Nat → Attempt (HttpResponse (List (TaskRecord γ))) ε) :
    Except (OpError ε) (List (MTask δ)) :=
  match (Pipeline.request att).result with
  | .error e => .error (.transport e)
  | .ok resp =>
    match raise_for_status resp with
    | .error _ => .error (.http resp.status_code)
    | .ok _ =>
      match deserializeAll deser resp.body with
      | .error m => .error (.protocol m)
      | .ok ts => .ok ts

/-- `Pipeline.claim`: POST to the claim endpoint, `raise_for_status`, then
deserialize every record of the response body, exactly as `_get_tasks` does. -/
def Pipeline.claimTasks {γ δ ε : Type} (deser : γ → Except String δ)
    (att : Nat → Attempt (HttpResponse (List (TaskRecord γ))) ε) :
    Except (OpError ε) (List (MTask δ)) :=
  match (Pipeline.request att).result with
  | .error e => .error (.transport e)
  | .ok resp =>
    match raise_for_status resp with
    | .error _ => .error (.http resp.status_code)
    | .ok _ =>
      match deserializeAll deser resp.body with
      | .error m => .error (.protocol m)
      | .ok ts => .ok ts

/-! ## The companion status-update retry loop (`qc_state.py`, `_update_task_status`)

The loop is

    num_attempts = 3
    i = 0
    success = False
    while i < num_attempts:
        try:
            send_porch_request(...)
            success = True
            i = num_attempts
        except Exception:
            if i != (num_attempts - 1):
                time.sleep(60 + (i * 300))
            i = +1

`i = +1` is unary plus applied to the literal `1`: it reassigns `i` to `1`
(it does not increment).  The loop is embedded with explicit state and a fuel
bound: `none` means the fuel ran out with the loop still running. -/

structure UpdateLoopState where
  i : Nat
  success : Bool
  /-- How many `send_porch_request` calls have been made. -/
  attemptsMade : Nat
deriving DecidableEq

/-- One pass of the loop body.  `ok` is whether this `send_porch_request` call
succeeds.  On success `i = num_attempts`; on failure `i = +1`, i.e. `i := 1`.
(The conditional `time.sleep` in the failure branch does not change the
state.) -/
def updateLoopStep (num_attempts : Nat) (ok : Bool) (s : UpdateLoopState) : UpdateLoopState :=
  if ok then { i := num_attempts, success := true, attemptsMade := s.attemptsMade + 1 }
  else { i := 1, success := s.success, attemptsMade := s.attemptsMade + 1 }

/-- Run the `while i < num_attempts` loop for at most `fuel` iterations;
`outcomes k` is whether the `k`-th `send_porch_request` call succeeds.
Returns `some success` when the loop exits, `none` when the fuel is exhausted
with the guard still true. -/
def updateTaskStatusRun (num_attempts : Nat) (outcomes : Nat → Bool) :
    Nat → UpdateLoopState → Option Bool
  | 0, _ => none
  | fuel + 1, s =>
    if s.i < num_attempts then
      updateTaskStatusRun num_attempts outcomes fuel
        (updateLoopStep num_attempts (outcomes s.attemptsMade) s)
    else some s.success

/-- The loop's entry state: `i = 0`, `success = False`, no calls made yet. -/
def updateTaskStatusStart : UpdateLoopState := { i := 0, success := false, attemptsMade := 0 }

/-! ## Concrete instances used by witnesses and counterexamples -/

def cexPid : PipelineIdentity :=
  { name := "ont-event-email", uri := "https://github.com/wtsi/npg_notifications.git",
    version := "1.0.0" }

/-- A task class whose `from_serializable` always succeeds (content is a bare `Nat`). -/
def natDeser : Nat → Except String Nat := fun c => .ok c

def cexTask1 : ContactEmail :=
  { status := some "PENDING", experiment_name := "expt1", instrument_slot := 1,
    flowcell_id := "FC111", path := "/seq/run1", event := "uploaded" }

def cexTask2 : ContactEmail :=
  { status := some "PENDING", experiment_name := "expt2", instrument_slot := 2,
    flowcell_id := "FC222", path := "/seq/run2", event := "uploaded" }

/-- A transport that fails every attempt with the same exception. -/
def cexFailNat : Nat → Attempt Nat Nat := fun _ => .failure 7

/-- A transport that answers every attempt with a 200 response. -/
def cexRespNat : Nat → Attempt Nat Nat := fun _ => .response 200

/-! ## Claim theorems -/

/-- C1: the claim says `A == B` iff the serialized contents are equal and that
`hash` is well-defined (and content-determined) whenever `to_serializable()`
succeeds.  The code cannot deliver the hash part: `Task.__hash__` is
`hash(self.to_serializable())` and `to_serializable()` is a `dict`, which is
unhashable, so `hash` raises `TypeError` for every task.  This theorem
evaluates the code at two concretely constructed tasks with different content:
construction succeeds, `Task.__eq__` distinguishes them, yet hashing either
raises. -/
theorem task_hash_always_raises :
    ∃ t u : ContactEmail,
      ContactEmail.init (some "expt1") (some 1) (some "FC111") (some "/seq/run1")
        (some "uploaded") = Except.ok t ∧
      ContactEmail.init (some "expt2") (some 2) (some "FC222") (some "/seq/run2")
        (some "uploaded") = Except.ok u ∧
      Task.pyEq t u = false ∧
      ContactEmail.pyHashValue t = Except.error "TypeError: unhashable type: dict" ∧
      ContactEmail.pyHashValue u = Except.error "TypeError: unhashable type: dict" :=
  ⟨cexTask1, cexTask2, rfl, rfl, by decide, rfl, rfl⟩

/-- C3: for every transport behaviour, an attempt that yields any HTTP response
makes `_request` return it at once with no further attempts; a transport
failure is retried with backoff 15 then 30; after 3 transport failures exactly
3 attempts have been made and the last transport error is raised unmodified. -/
theorem request_retry_policy {ρ ε : Type} (att : Nat → Attempt ρ ε) :
    (∀ r, att 0 = .response r → Pipeline.request att = ⟨.ok r, 1, []⟩) ∧
    (∀ e₀ r, att 0 = .failure e₀ → att 1 = .response r →
      Pipeline.request att = ⟨.ok r, 2, [15]⟩) ∧
    (∀ e₀ e₁ r, att 0 = .failure e₀ → att 1 = .failure e₁ → att 2 = .response r →
      Pipeline.request att = ⟨.ok r, 3, [15, 30]⟩) ∧
    (∀ e₀ e₁ e₂, att 0 = .failure e₀ → att 1 = .failure e₁ → att 2 = .failure e₂ →
      Pipeline.request att = ⟨.error (some e₂), 3, [15, 30, 60]⟩) := by
  refine ⟨?_, ?_, ?_, ?_⟩
  · intro r h0
    simp [Pipeline.request, requestLoop, h0]
  · intro e₀ r h0 h1
    simp [Pipeline.request, requestLoop, h0, h1]
  · intro e₀ e₁ r h0 h1 h2
    simp [Pipeline.request, requestLoop, h0, h1, h2]
  · intro e₀ e₁ e₂ h0 h1 h2
    simp [Pipeline.request, requestLoop, h0, h1, h2]

/-- C10: when all three attempts fail at transport level, a backoff sleep runs
after every failed attempt including the final one: exactly three sleeps, of
15, 30 and then 60 units, precede the raising of the last transport error. -/
theorem request_thirdFailure_extra_sleep {ρ ε : Type} (att : Nat → Attempt ρ ε)
    (e₀ e₁ e₂ : ε) (h0 : att 0 = .failure e₀) (h1 : att 1 = .failure e₁)
    (h2 : att 2 = .failure e₂) :
    (Pipeline.request att).sleeps = [15, 30, 60] ∧
    (Pipeline.request att).result = .error (some e₂) := by
  simp [Pipeline.request, requestLoop, h0, h1, h2]

/-- C10 witness: the always-failing transport `cexFailNat` slept 15, 30 and 60
and raised its error. -/
theorem request_thirdFailure_extra_sleep_witness :
    (Pipeline.request cexFailNat).sleeps = [15, 30, 60] ∧
    (Pipeline.request cexFailNat).result = .error (some 7) :=
  request_thirdFailure_extra_sleep cexFailNat 7 7 7 rfl rfl rfl

/-- C9 counterexample: the claim says the `_update_task_status` loop runs only
twice when every request attempt fails and, equivalently, always terminates
after at most `num_attempts = 3` iterations.  With every attempt failing, after
10 iterations the loop guard is still true (`i` is stuck at 1), so the loop
neither stopped after two iterations nor terminated within the budget. -/
theorem update_loop_exceeds_budget_cex :
    updateTaskStatusRun 3 (fun _ => false) 10 updateTaskStatusStart = none := rfl

/-- When every `send_porch_request` call fails, any state with `i < 3` steps to
`i = 1 < 3`, so the guard never becomes false: the loop never exits. -/
theorem updateTaskStatusRun_none_of_allFail (outcomes : Nat → Bool)
    (h : ∀ k, outcomes k = false) :
    ∀ (fuel : Nat) (s : UpdateLoopState), s.i < 3 →
      updateTaskStatusRun 3 outcomes fuel s = none := by
  intro fuel
  induction fuel with
  | zero => intro s _; rfl
  | succ n ih =>
    intro s hs
    rw [updateTaskStatusRun, if_pos hs]
    exact ih _ (by simp [updateLoopStep, h s.attemptsMade])

/-- C9 amended: `_update_task_status` updates its attempt counter with the
reassignment `i = +1` (unary plus: `i := 1`) rather than an increment, with the
consequence that when every request attempt fails the loop never terminates —
for every iteration bound, the `while i < num_attempts` guard is still true. -/
theorem update_task_status_loop_never_terminates (outcomes : Nat → Bool)
    (h : ∀ k, outcomes k = false) (fuel : Nat) :
    updateTaskStatusRun 3 outcomes fuel updateTaskStatusStart = none :=
  updateTaskStatusRun_none_of_allFail outcomes h fuel updateTaskStatusStart (by decide)

/-- C9 witness: concrete all-failing outcomes, five iterations, loop still
running. -/
theorem update_task_status_loop_never_terminates_witness :
    updateTaskStatusRun 3 (fun _ => false) 5 updateTaskStatusStart = none :=
  update_task_status_loop_never_terminates (fun _ => false) (fun _ => rfl) 5

/-- A claimed task with `Nat` content. -/
def cexClaimedTask : MTask Nat := { content := 0, status := some "CLAIMED" }

/-- An update-request transport that fails every attempt. -/
def cexFailUpd : UpdateBody Nat → Nat → Attempt (HttpResponse (TaskRecord Nat)) Nat :=
  fun _ _ => .failure 5

/-- C2 counterexample: the claim says a transition never sets the status
optimistically and that, if the request raises, the task's status is unchanged.
Here `run` is applied to a `CLAIMED` task against a transport that fails every
attempt: the request raises, yet the caller's task now carries the locally
desired `RUNNING` status, not its previous `CLAIMED` one. -/
theorem run_mutates_status_before_confirmation_cex :
    (Pipeline.run cexPid (fun c : Nat => c) natDeser cexFailUpd cexClaimedTask).1.status
        = some "RUNNING" ∧
    cexClaimedTask.status = some "CLAIMED" ∧
    (Pipeline.run cexPid (fun c : Nat => c) natDeser cexFailUpd cexClaimedTask).2.2
        = Except.error (OpError.transport (some 5)) :=
  ⟨rfl, rfl, rfl⟩

/-- Helper: when `_from_serializable` succeeds, the produced task's status is
the record's status string, which is one of the six member names. -/
theorem from_serializable_ok_status {γ δ : Type} (deser : γ → Except String δ)
    (s : TaskRecord γ) (t : MTask δ)
    (h : Pipeline.from_serializable deser s = Except.ok t) :
    t.status = some s.status ∧ s.status ∈ statusMembers := by
  unfold Pipeline.from_serializable at h
  split at h
  · exact absurd h (by simp)
  · split at h
    · rename_i hm
      cases h
      exact ⟨rfl, hm⟩
    · exact absurd h (by simp)

/-- Helper: when `_update_task` returns a task, an HTTP response was received
and the returned task's status is the status string of that response's body. -/
theorem update_task_ok_status {γ δ ε : Type} (deser : γ → Except String δ)
    (att : UpdateBody γ → Nat → Attempt (HttpResponse (TaskRecord γ)) ε)
    (body : UpdateBody γ) (u : MTask δ)
    (h : Pipeline.update_task deser att body = Except.ok u) :
    ∃ resp, (Pipeline.request (att body)).result = Except.ok resp ∧
      u.status = some resp.body.status ∧ resp.body.status ∈ statusMembers := by
  unfold Pipeline.update_task at h
  split at h
  · exact absurd h (by simp)
  · rename_i resp hres
    refine ⟨resp, hres, ?_⟩
    split at h
    · exact absurd h (by simp)
    · split at h
      · exact absurd h (by simp)
      · rename_i t hfs
        cases h
        exact from_serializable_ok_status deser resp.body u hfs

/-- C2 amended: each of `run`/`done`/`fail`/`cancel`/`retry` first sets the
desired status on the caller's task (an optimistic local mutation, kept even
when the request then raises), sends the pipeline identity, serialized content
and desired status to the broker, and — when the round trip succeeds — returns
a fresh task whose status is taken from the broker's response, not the locally
desired one. -/
theorem transition_status_flow {γ δ ε : Type} (p : PipelineIdentity) (ser : δ → γ)
    (deser : γ → Except String δ) (desired : String)
    (att : UpdateBody γ → Nat → Attempt (HttpResponse (TaskRecord γ)) ε)
    (task : MTask δ) :
    (Pipeline.transition p ser deser desired att task).1.status = some desired ∧
    (Pipeline.transition p ser deser desired att task).2.1 =
      { pipeline := p, task_input := ser task.content, status := some desired } ∧
    (∀ u, (Pipeline.transition p ser deser desired att task).2.2 = Except.ok u →
      ∃ resp,
        (Pipeline.request (att (Pipeline.transition p ser deser desired att task).2.1)).result
          = Except.ok resp ∧
        u.status = some resp.body.status ∧ resp.body.status ∈ statusMembers) ∧
    Pipeline.run p ser deser att task = Pipeline.transition p ser deser "RUNNING" att task ∧
    Pipeline.done p ser deser att task = Pipeline.transition p ser deser "DONE" att task ∧
    Pipeline.fail p ser deser att task = Pipeline.transition p ser deser "FAILED" att task ∧
    Pipeline.cancel p ser deser att task = Pipeline.transition p ser deser "CANCELLED" att task ∧
    Pipeline.retry p ser deser att task = Pipeline.transition p ser deser "PENDING" att task := by
  refine ⟨rfl, rfl, ?_, rfl, rfl, rfl, rfl, rfl⟩
  intro u hu
  exact update_task_ok_status deser att
    { pipeline := p, task_input := ser task.content, status := some desired } u hu

/-- A pending task with `Nat` content. -/
def cexPendingTask : MTask Nat := { content := 1, status := some "PENDING" }

/-- An add-request transport answering 304 Not Modified on the first attempt. -/
def cexAtt304 : UpdateBody Nat → Nat → Attempt (HttpResponse Nat) Nat :=
  fun _ _ => .response { status_code := 304, body := 0 }

/-- An add-request transport answering 201 Created. -/
def cexAtt201add : UpdateBody Nat → Nat → Attempt (HttpResponse Nat) Nat :=
  fun _ _ => .response { status_code := 201, body := 0 }

/-- An add-request transport answering 500 Internal Server Error. -/
def cexAtt500add : UpdateBody Nat → Nat → Attempt (HttpResponse Nat) Nat :=
  fun _ _ => .response { status_code := 500, body := 0 }

/-- C4 counterexample: the claim says any non-success (non-2xx) status makes
`add` raise.  A 304 response is not a 2xx status, yet `add` returns `False`
instead of raising, because `raise_for_status` raises only for 400-599. -/
theorem add_304_returns_cex :
    Pipeline.add cexPid (fun c : Nat => c) cexAtt304 cexPendingTask = Except.ok false ∧
    ¬ (200 ≤ 304 ∧ 304 < 300) :=
  ⟨rfl, by decide⟩

/-- C4 amended: `add` returns `True` exactly when the response's status code is
201 (Created); any other status code outside 400-599 — in particular any other
2xx, but also 1xx and 3xx — makes `add` return `False`, with the response body
playing no part (the body type is arbitrary); a 4xx or 5xx status makes `add`
raise. -/
theorem add_created_iff_201 {γ δ β ε : Type} (p : PipelineIdentity) (ser : δ → γ)
    (att : UpdateBody γ → Nat → Attempt (HttpResponse β) ε) (task : MTask δ)
    (resp : HttpResponse β)
    (h : (Pipeline.request (att { pipeline := p, task_input := ser task.content,
                                  status := task.status })).result = Except.ok resp) :
    (400 ≤ resp.status_code ∧ resp.status_code < 600 →
      Pipeline.add p ser att task = Except.error (OpError.http resp.status_code)) ∧
    (¬ (400 ≤ resp.status_code ∧ resp.status_code < 600) →
      Pipeline.add p ser att task = Except.ok (resp.status_code == 201)) ∧
    (resp.status_code = 201 → Pipeline.add p ser att task = Except.ok true) ∧
    (200 ≤ resp.status_code → resp.status_code < 300 → resp.status_code ≠ 201 →
      Pipeline.add p ser att task = Except.ok false) := by
  refine ⟨?_, ?_, ?_, ?_⟩
  · intro hc
    simp [Pipeline.add, h, raise_for_status, hc]
  · intro hc
    simp [Pipeline.add, h, raise_for_status, hc]
  · intro hc
    simp [Pipeline.add, h, raise_for_status, hc]
  · intro h1 h2 h3
    have hnc : ¬ (400 ≤ resp.status_code ∧ resp.status_code < 600) := by omega
    simp [Pipeline.add, h, raise_for_status, hnc, h3]

/-- C4 witness: a 201 response yields `True`, a 500 response raises. -/
theorem add_created_iff_201_witness :
    Pipeline.add cexPid (fun c : Nat => c) cexAtt201add cexPendingTask = Except.ok true ∧
    Pipeline.add cexPid (fun c : Nat => c) cexAtt500add cexPendingTask
      = Except.error (OpError.http 500) :=
  ⟨(add_created_iff_201 cexPid (fun c : Nat => c) cexAtt201add cexPendingTask
      { status_code := 201, body := 0 } rfl).2.2.1 rfl,
   (add_created_iff_201 cexPid (fun c : Nat => c) cexAtt500add cexPendingTask
      { status_code := 500, body := 0 } rfl).1 (by decide)⟩

/-- A register transport answering 409 Conflict. -/
def cexAtt409reg : PipelineIdentity → Nat → Attempt (HttpResponse Nat) Nat :=
  fun _ _ => .response { status_code := 409, body := 0 }

/-- A register transport answering 201 Created. -/
def cexAtt201reg : PipelineIdentity → Nat → Attempt (HttpResponse Nat) Nat :=
  fun _ _ => .response { status_code := 201, body := 0 }

/-- A register transport answering 500 Internal Server Error. -/
def cexAtt500reg : PipelineIdentity → Nat → Attempt (HttpResponse Nat) Nat :=
  fun _ _ => .response { status_code := 500, body := 0 }

/-- C5: `register` treats creation success (2xx) and the specific conflict
status 409 as non-error outcomes returning the pipeline object; for 409 a
warning is logged (the `Bool` component) and nothing is raised; any other
failure status (4xx/5xx other than 409) raises. -/
theorem register_conflict_policy {β ε : Type} (p : PipelineIdentity)
    (att : PipelineIdentity → Nat → Attempt (HttpResponse β) ε) (resp : HttpResponse β)
    (h : (Pipeline.request (att p)).result = Except.ok resp) :
    (resp.status_code = 409 → Pipeline.register p att = (Except.ok p, true)) ∧
    (200 ≤ resp.status_code → resp.status_code < 300 →
      Pipeline.register p att = (Except.ok p, false)) ∧
    (400 ≤ resp.status_code → resp.status_code < 600 → resp.status_code ≠ 409 →
      Pipeline.register p att = (Except.error (OpError.http resp.status_code), false)) := by
  refine ⟨?_, ?_, ?_⟩
  · intro hc
    simp [Pipeline.register, h, hc]
  · intro h1 h2
    have hne : resp.status_code ≠ 409 := by omega
    have hnc : ¬ (400 ≤ resp.status_code ∧ resp.status_code < 600) := by omega
    simp [Pipeline.register, h, raise_for_status, hne, hnc]
  · intro h1 h2 h3
    simp [Pipeline.register, h, raise_for_status, h3, And.intro h1 h2]

/-- C5 witness: 409 warns and returns, 201 returns, 500 raises. -/
theorem register_conflict_policy_witness :
    Pipeline.register cexPid cexAtt409reg = (Except.ok cexPid, true) ∧
    Pipeline.register cexPid cexAtt201reg = (Except.ok cexPid, false) ∧
    Pipeline.register cexPid cexAtt500reg = (Except.error (OpError.http 500), false) :=
  ⟨(register_conflict_policy cexPid cexAtt409reg { status_code := 409, body := 0 } rfl).1 rfl,
   (register_conflict_policy cexPid cexAtt201reg { status_code := 201, body := 0 } rfl).2.1
     (by decide) (by decide),
   (register_conflict_policy cexPid cexAtt500reg { status_code := 500, body := 0 } rfl).2.2
     (by decide) (by decide) (by decide)⟩

/-- Helper: a record whose status string is not a member name makes the
record-list deserialization raise (whichever record raises first). -/
theorem deserializeAll_error_of_bad_status {γ δ : Type} (deser : γ → Except String δ)
    (rec : TaskRecord γ) (hbad : rec.status ∉ statusMembers) :
    ∀ rs : List (TaskRecord γ), rec ∈ rs → ∃ m, deserializeAll deser rs = Except.error m := by
  intro rs
  induction rs with
  | nil => intro hmem; cases hmem
  | cons r tl ih =>
    intro hmem
    unfold deserializeAll
    split
    · exact ⟨_, rfl⟩
    · rename_i t hfs
      split
      · exact ⟨_, rfl⟩
      · rename_i ts hds
        rcases List.mem_cons.mp hmem with hr | htl
        · subst hr
          exact absurd (from_serializable_ok_status deser rec t hfs).2 hbad
        · obtain ⟨m, hm⟩ := ih htl
          rw [hm] at hds
          simp at hds

/-- C6: when the broker returns a record whose status string is not one of the
six member names, the deserialization in the list-style operations
(`_get_tasks`, hence `all`/`pending`/`claimed`/`running`/`succeeded`/
`cancelled`/`failed`) and in `claim` raises a `ValueError` (a fatal protocol
error; `_request` retries only transport failures, never raised exceptions)
rather than returning the record. -/
theorem unrecognized_status_is_fatal {γ δ ε : Type} (deser : γ → Except String δ)
    (att : Nat → Attempt (HttpResponse (List (TaskRecord γ))) ε)
    (resp : HttpResponse (List (TaskRecord γ))) (rec : TaskRecord γ)
    (hresp : (Pipeline.request att).result = Except.ok resp)
    (hok : raise_for_status resp = Except.ok ())
    (hrec : rec ∈ resp.body) (hbad : rec.status ∉ statusMembers) :
    (∃ m, Pipeline.get_tasks deser att = Except.error (OpError.protocol m)) ∧
    (∃ m, Pipeline.claimTasks deser att = Except.error (OpError.protocol m)) ∧
    (∃ m, Pipeline.from_serializable deser rec = Except.error m) := by
  obtain ⟨m, hm⟩ := deserializeAll_error_of_bad_status deser rec hbad resp.body hrec
  refine ⟨⟨m, ?_⟩, ⟨m, ?_⟩, ?_⟩
  · simp [Pipeline.get_tasks, hresp, hok, hm]
  · simp [Pipeline.claimTasks, hresp, hok, hm]
  · cases hfs : Pipeline.from_serializable deser rec with
    | error e => exact ⟨e, rfl⟩
    | ok t => exact absurd (from_serializable_ok_status deser rec t hfs).2 hbad

/-- A server record carrying a status string that is not a member name. -/
def cexBadRecord : TaskRecord Nat := { task_input := 7, status := "UNKNOWN" }

/-- A list-request transport answering 200 with one bad-status record. -/
def cexBadListAtt : Nat → Attempt (HttpResponse (List (TaskRecord Nat))) Nat :=
  fun _ => .response { status_code := 200, body := [cexBadRecord] }

/-- C6 witness: a concrete 200 response whose single record has status
`UNKNOWN` makes `_get_tasks` and `claim` raise. -/
theorem unrecognized_status_is_fatal_witness :
    (∃ m, Pipeline.get_tasks natDeser cexBadListAtt = Except.error (OpError.protocol m)) ∧
    (∃ m, Pipeline.claimTasks natDeser cexBadListAtt = Except.error (OpError.protocol m)) ∧
    (∃ m, Pipeline.from_serializable natDeser cexBadRecord = Except.error m) :=
  unrecognized_status_is_fatal natDeser cexBadListAtt
    { status_code := 200, body := [cexBadRecord] } cexBadRecord rfl rfl
    (List.mem_singleton.mpr rfl) (by decide)

/-- Helper: when the `ContactEmail` constructor succeeds, every argument was
present, the slot was in range, and the task's fields are those arguments with
status `PENDING`. -/
theorem contactEmail_init_ok_shape (en : Option String) (isl : Option Int)
    (fid pa ev : Option String) (t : ContactEmail)
    (h : ContactEmail.init en isl fid pa ev = Except.ok t) :
    en = some t.experiment_name ∧ isl = some t.instrument_slot ∧
    fid = some t.flowcell_id ∧ pa = some t.path ∧ ev = some t.event ∧
    ¬ (t.instrument_slot < 1 ∨ t.instrument_slot > 24) ∧ t.status = some "PENDING" := by
  cases en with
  | none => simp [ContactEmail.init] at h
  | some en₀ =>
    cases isl with
    | none => simp [ContactEmail.init] at h
    | some slot =>
      cases fid with
      | none =>
        simp only [ContactEmail.init] at h
        split at h <;> simp at h
      | some fid₀ =>
        cases pa with
        | none =>
          simp only [ContactEmail.init] at h
          split at h <;> simp at h
        | some pa₀ =>
          cases ev with
          | none =>
            simp only [ContactEmail.init] at h
            split at h <;> simp at h
          | some ev₀ =>
            simp only [ContactEmail.init] at h
            split at h
            · simp at h
            · rename_i hcond
              rw [Except.ok.injEq] at h
              subst h
              exact ⟨rfl, rfl, rfl, rfl, rfl, hcond, rfl⟩

/-- C7: for every task built from valid field values by the constructor,
`from_serializable(to_serializable(t))` reproduces the task, in particular a
task with equal serialized content. -/
theorem contactEmail_round_trip (en : Option String) (isl : Option Int)
    (fid pa ev : Option String) (t : ContactEmail)
    (h : ContactEmail.init en isl fid pa ev = Except.ok t) :
    ContactEmail.from_serializable (ContactEmail.to_serializable t) = Except.ok t ∧
    ∃ u, ContactEmail.from_serializable (ContactEmail.to_serializable t) = Except.ok u ∧
      ContactEmail.to_serializable u = ContactEmail.to_serializable t := by
  obtain ⟨-, -, -, -, -, hrange, hst⟩ := contactEmail_init_ok_shape en isl fid pa ev t h
  have main : ContactEmail.from_serializable (ContactEmail.to_serializable t)
      = Except.ok t := by
    obtain ⟨st, en', isl', fid', pa', ev'⟩ := t
    simp only [ContactEmail.from_serializable, ContactEmail.to_serializable,
      ContactEmail.init]
    rw [if_neg hrange]
    simp only at hst
    rw [hst]
  exact ⟨main, t, main, rfl⟩

/-- C7 witness: the round trip at a concretely constructed task. -/
theorem contactEmail_round_trip_witness :
    ContactEmail.from_serializable (ContactEmail.to_serializable cexTask1)
        = Except.ok cexTask1 ∧
    ∃ u, ContactEmail.from_serializable (ContactEmail.to_serializable cexTask1)
        = Except.ok u ∧
      ContactEmail.to_serializable u = ContactEmail.to_serializable cexTask1 :=
  contactEmail_round_trip (some "expt1") (some 1) (some "FC111") (some "/seq/run1")
    (some "uploaded") cexTask1 rfl

/-- C8: constructing or deserializing a `ContactEmail` raises a `ValueError`
when any required field (`experiment_name`, `instrument_slot`, `flowcell_id`,
`path`, `event`) is absent, and the constructor rejects `instrument_slot`
values outside 1..24; `from_serializable` is exactly the constructor applied to
the record's fields, and the constructor is a pure function of its arguments —
the check happens at the boundary, before any network interaction. -/
theorem contactEmail_validation (en : Option String) (isl : Option Int)
    (fid pa ev : Option String) :
    ((en = none ∨ isl = none ∨ fid = none ∨ pa = none ∨ ev = none) →
      ∃ m, ContactEmail.init en isl fid pa ev = Except.error m) ∧
    (∀ en₀ slot, en = some en₀ → isl = some slot → (slot < 1 ∨ slot > 24) →
      ContactEmail.init en isl fid pa ev
        = Except.error "instrument_slot must be between 1 and 24") ∧
    (∀ t, ContactEmail.init en isl fid pa ev = Except.ok t →
      en = some t.experiment_name ∧ isl = some t.instrument_slot ∧
      fid = some t.flowcell_id ∧ pa = some t.path ∧ ev = some t.event ∧
      1 ≤ t.instrument_slot ∧ t.instrument_slot ≤ 24) ∧
    ContactEmail.from_serializable
      { experiment_name := en, instrument_slot := isl, flowcell_id := fid,
        path := pa, event := ev } = ContactEmail.init en isl fid pa ev := by
  refine ⟨?_, ?_, ?_, rfl⟩
  · intro hmiss
    have hnotok : ∀ t, ContactEmail.init en isl fid pa ev ≠ Except.ok t := by
      intro t ht
      obtain ⟨hen, hisl, hfid, hpa, hev, -, -⟩ :=
        contactEmail_init_ok_shape en isl fid pa ev t ht
      rcases hmiss with h | h | h | h | h
      · rw [h] at hen; cases hen
      · rw [h] at hisl; cases hisl
      · rw [h] at hfid; cases hfid
      · rw [h] at hpa; cases hpa
      · rw [h] at hev; cases hev
    cases hinit : ContactEmail.init en isl fid pa ev with
    | error m => exact ⟨m, rfl⟩
    | ok t => exact absurd hinit (hnotok t)
  · intro en₀ slot hen hisl hrange
    subst hen
    subst hisl
    simp only [ContactEmail.init]
    rw [if_pos hrange]
  · intro t ht
    obtain ⟨hen, hisl, hfid, hpa, hev, hrange, -⟩ :=
      contactEmail_init_ok_shape en isl fid pa ev t ht
    exact ⟨hen, hisl, hfid, hpa, hev, by omega, by omega⟩
